import Mathlib

/-!
Shallow embedding of the SynergySphere backend (Express + Mongoose) data
model and route handlers, with proofs of the specification claims.

Document ids (`ObjectId`) are modelled as `Nat`; dates as `Nat` timestamps
(`Option Nat` where the field is nullable); the document store as explicit
lists of documents threaded through the operations.  Mongoose's
`Document.save()` pipeline is modelled as: run the schema's pre-save hooks,
persist the document, run the post-save hooks.
-/

namespace SynergySphere

/-- `Math.round` on a non-negative finite number: round half away from zero,
which for non-negative arguments is `⌊q + 1/2⌋`. -/
def mathRound (q : ℚ) : ℤ := ⌊q + 1/2⌋

/-- Task status enum from `taskSchema`:
`['todo', 'in-progress', 'in-review', 'completed', 'cancelled']`. -/
inductive TaskStatus
  | todo
  | inProgress
  | inReview
  | completed
  | cancelled
deriving DecidableEq, Repr

/-- Dependency type enum from `taskSchema.dependencies`:
`['blocks', 'blocked-by', 'relates-to']`. -/
inductive DepType
  | blocks
  | blockedBy
  | relatesTo
deriving DecidableEq, Repr

/-- One entry of `taskSchema.dependencies`: `{ task: ObjectId, type }`. -/
structure Dependency where
  task : Nat
  depType : DepType
deriving DecidableEq, Repr

/-- One entry of `taskSchema.activity` (fields the claims need:
`type`, `user`). -/
structure ActivityEntry where
  entryType : String
  user : Nat
deriving DecidableEq, Repr

/-- One entry of `taskSchema.comments` (fields the claims need:
`author`, `content`, `mentions`). -/
structure Comment where
  author : Nat
  content : String
  mentions : List Nat
deriving DecidableEq, Repr

/-- A `Task` document (the fields the claims are about). -/
structure TaskDoc where
  id : Nat
  project : Nat
  assignee : Option Nat := none
  status : TaskStatus := .todo
  completedAt : Option Nat := none
  dependencies : List Dependency := []
  comments : List Comment := []
  watchers : List Nat := []
  activity : List ActivityEntry := []
deriving DecidableEq, Repr

/-- The per-member permission bag from `projectSchema.members.permissions`. -/
structure Permissions where
  canCreateTasks : Bool := true
  canEditTasks : Bool := true
  canDeleteTasks : Bool := false
  canManageMembers : Bool := false
  canEditProject : Bool := false
deriving DecidableEq, Repr

/-- Member role enum from `projectSchema.members.role`. -/
inductive Role
  | owner
  | admin
  | member
  | viewer
deriving DecidableEq, Repr

/-- One entry of `projectSchema.members`. -/
structure Member where
  user : Nat
  role : Role := .member
  permissions : Permissions := {}
deriving DecidableEq, Repr

/-- `projectSchema.progress`: the derived task counters. -/
structure Progress where
  totalTasks : Nat := 0
  completedTasks : Nat := 0
  percentage : ℤ := 0
deriving DecidableEq, Repr

/-- A `Project` document (the fields the claims are about;
`statistics.lastActivity` is kept because `updateProgress` writes it). -/
structure ProjectDoc where
  id : Nat
  owner : Nat
  members : List Member := []
  progress : Progress := {}
  lastActivity : Nat := 0
deriving DecidableEq, Repr

/-! ### Project.js: pre-save hook and updateProgress -/

/-- `projectSchema.pre('save')` (Project.js lines 175–182): recompute
`progress.percentage` from the stored counters. -/
def projectPreSave (p : ProjectDoc) : ProjectDoc :=
  if p.progress.totalTasks > 0 then
    { p with progress := { p.progress with
        percentage := mathRound ((p.progress.completedTasks : ℚ) / (p.progress.totalTasks : ℚ) * 100) } }
  else
    { p with progress := { p.progress with percentage := 0 } }

/-- `Project.save()` for a project document: runs the pre-save hook and
persists (no post-save hook mutates the project itself). -/
def projectSave (p : ProjectDoc) : ProjectDoc := projectPreSave p

/-- `projectSchema.methods.updateProgress` (Project.js lines 260–275):
`Task.find({project: this._id})`, set `totalTasks`/`completedTasks`,
recompute `percentage`, stamp `statistics.lastActivity`, then `save()`. -/
def ProjectDoc.updateProgress (tasks : List TaskDoc) (now : Nat) (p : ProjectDoc) : ProjectDoc :=
  let projTasks := tasks.filter (fun t => t.project == p.id)
  let total := projTasks.length
  let completed := (projTasks.filter (fun t => t.status == TaskStatus.completed)).length
  let p : ProjectDoc :=
    { p with progress := { p.progress with totalTasks := total, completedTasks := completed } }
  let p : ProjectDoc :=
    if p.progress.totalTasks > 0 then
      { p with progress := { p.progress with
          percentage := mathRound ((p.progress.completedTasks : ℚ) / (p.progress.totalTasks : ℚ) * 100) } }
    else
      { p with progress := { p.progress with percentage := 0 } }
  let p := { p with lastActivity := now }
  projectSave p

/-! ### Message.js: reactions -/

/-- One entry of `messageSchema.reactions`: `{ emoji, users, count }`. -/
structure Reaction where
  emoji : String
  users : List Nat
  count : Nat
deriving DecidableEq, Repr

/-- A `Message` document (the fields the claims are about).  An
`editHistory` entry is a `(content, editedAt)` pair. -/
structure MessageDoc where
  id : Nat
  project : Nat
  author : Nat
  content : String := ""
  reactions : List Reaction := []
  isEdited : Bool := false
  editedAt : Option Nat := none
  editHistory : List (String × Nat) := []
  isDeleted : Bool := false
  deletedAt : Option Nat := none
deriving DecidableEq, Repr

/-- `messageSchema.methods.editContent` (Message.js lines 229–241): push
the old content onto `editHistory`, replace `content`, set
`isEdited`/`editedAt`, and save. -/
def MessageDoc.editContent (newContent : String) (now : Nat) (m : MessageDoc) : MessageDoc :=
  { m with
    editHistory := m.editHistory ++ [(m.content, now)]
    content := newContent
    isEdited := true
    editedAt := some now }

/-- `messageSchema.methods.softDelete` (Message.js lines 275–279): set
`isDeleted`/`deletedAt` and save. -/
def MessageDoc.softDelete (now : Nat) (m : MessageDoc) : MessageDoc :=
  { m with isDeleted := true, deletedAt := some now }

/-- Mutating the first element satisfying `p` in place, as JS
`array.find(...)` followed by mutation of the found element does. -/
def updateFirst (p : α → Bool) (f : α → α) : List α → List α
  | [] => []
  | a :: as => if p a then f a :: as else a :: updateFirst p f as

/-- `messageSchema.methods.addReaction` (Message.js lines 190–209): find the
reaction entry for `emoji`; if present and the user has not reacted yet,
push the user and bump `count`; otherwise create a fresh entry
`{emoji, users: [userId], count: 1}`.  (Mongoose arrays compare ObjectIds
by value in `includes`.) -/
def MessageDoc.addReaction (emoji : String) (userId : Nat) (m : MessageDoc) : MessageDoc :=
  match m.reactions.find? (fun r => r.emoji == emoji) with
  | some _ =>
      let rs := updateFirst (fun r => r.emoji == emoji)
        (fun r =>
          if r.users.contains userId then r
          else { r with users := r.users ++ [userId], count := r.count + 1 })
        m.reactions
      { m with reactions := rs }
  | none =>
      { m with reactions := m.reactions ++ [{ emoji := emoji, users := [userId], count := 1 }] }

/-- `messageSchema.methods.removeReaction` (Message.js lines 212–226): find
the reaction entry for `emoji`; filter the user out of its `users`, set
`count` to the new length, and when the entry became empty drop every entry
for that emoji from `reactions`. -/
def MessageDoc.removeReaction (emoji : String) (userId : Nat) (m : MessageDoc) : MessageDoc :=
  match m.reactions.find? (fun r => r.emoji == emoji) with
  | none => m
  | some r0 =>
      let us := r0.users.filter (fun u => !(u == userId))
      let rs := updateFirst (fun r => r.emoji == emoji)
          (fun r => { r with users := us, count := us.length }) m.reactions
      if us.length == 0 then
        { m with reactions := rs.filter (fun r => !(r.emoji == emoji)) }
      else
        { m with reactions := rs }

/-! ### Task.js: save pipeline -/

/-- `taskSchema.pre('save')` (Task.js lines 228–237): when the `status`
path was modified, stamp `completedAt` on completion and clear it
otherwise.  `statusModified` models `this.isModified('status')`;
`!this.completedAt` is the null check on the nullable date. -/
def taskPreSave (statusModified : Bool) (now : Nat) (t : TaskDoc) : TaskDoc :=
  if statusModified then
    if t.status == TaskStatus.completed && t.completedAt == none then
      { t with completedAt := some now }
    else if t.status != TaskStatus.completed then
      { t with completedAt := none }
    else t
  else t

/-- Persisting a task document into the collection: replace the document
with the same `_id`, or insert it if absent. -/
def persistTask (t : TaskDoc) (tasks : List TaskDoc) : List TaskDoc :=
  if tasks.any (fun u => u.id == t.id) then
    tasks.map (fun u => if u.id == t.id then t else u)
  else
    tasks ++ [t]

/-- The database state the task/project/message claims range over.
(Message statistics counters and the notifications collection are not
modelled; no claim is about them.) -/
structure DB where
  tasks : List TaskDoc := []
  projects : List ProjectDoc := []
  messages : List MessageDoc := []
deriving Repr, DecidableEq

/-- `Project.findById` over the projects collection. -/
def findProject (projects : List ProjectDoc) (pid : Nat) : Option ProjectDoc :=
  projects.find? (fun p => p.id == pid)

/-- `taskSchema.post('save')` (Task.js lines 240–250): look up the task's
project and, when it exists, run `project.updateProgress()` (which itself
re-reads the task collection and saves the project). -/
def taskPostSave (doc : TaskDoc) (now : Nat) (db : DB) : DB :=
  match findProject db.projects doc.project with
  | none => db
  | some p =>
      let p' := p.updateProgress db.tasks now
      { db with projects := db.projects.map (fun q => if q.id == p.id then p' else q) }

/-- `Task.save()` pipeline: pre-save hook, persist into the collection,
post-save hook. -/
def taskSave (statusModified : Bool) (now : Nat) (t : TaskDoc) (db : DB) : DB :=
  let t := taskPreSave statusModified now t
  let db := { db with tasks := persistTask t db.tasks }
  taskPostSave t now db

/-! ### Notification model (routes/middleware reference it; schema file is
`backend/models/Notification.js`): read-state methods -/

/-- A `Notification` document (the fields the claims are about). -/
structure NotificationDoc where
  id : Nat
  recipient : Nat
  isRead : Bool := false
  readAt : Option Nat := none
deriving DecidableEq, Repr

/-- `notificationSchema.methods.markAsRead` (lines 171–178): when unread,
set `isRead`/`readAt` and `save()`; otherwise resolve with the document
unchanged.  The `Bool` records whether a database write was issued. -/
def NotificationDoc.markAsRead (now : Nat) (n : NotificationDoc) : NotificationDoc × Bool :=
  if !n.isRead then
    ({ n with isRead := true, readAt := some now }, true)
  else
    (n, false)

/-- `notificationSchema.methods.markAsUnread` (lines 181–188): when read,
clear `isRead`/`readAt` and `save()`; otherwise resolve unchanged. -/
def NotificationDoc.markAsUnread (n : NotificationDoc) : NotificationDoc × Bool :=
  if n.isRead then
    ({ n with isRead := false, readAt := none }, true)
  else
    (n, false)

/-! ### Route handlers (routes/tasks.js, routes/messages.js) -/

/-- Outcome of a route handler or middleware: an HTTP response, either a
success (`res.status(n).json({success: true, ...})` carrying a payload) or
an error (`AppError(message, n)` / an inline error response). -/
inductive HResult (α : Type) where
  | ok (status : Nat) (v : α)
  | error (status : Nat) (message : String)
deriving Repr, DecidableEq

/-- `PUT /api/tasks/:id` (routes/tasks.js lines 446–569) specialised to a
request body that sets only `status`.  Mirrors: `Task.findById` +
`populate('project')`, the owner-or-`canEditTasks` check, change tracking,
`task.updateStatus` (which saves), the trailing `addActivity('updated', …)`
and second `task.save()`.  Notification fan-out and socket emission touch
no modelled state. -/
def putTaskStatus (user : Nat) (tid : Nat) (newStatus : TaskStatus) (now : Nat) (db : DB) :
    HResult TaskDoc × DB :=
  match db.tasks.find? (fun u => u.id == tid) with
  | none => (.error 404 "Task not found", db)
  | some task =>
    match findProject db.projects task.project with
    | none => (.error 500 "Internal server error", db)
    | some project =>
      let isOwner := project.owner == user
      let memberEntry := project.members.find? (fun mem => mem.user == user)
      let lacksEdit := match memberEntry with
        | none => true
        | some mem => !mem.permissions.canEditTasks
      if !isOwner && lacksEdit then
        (.error 403 "Access denied - cannot edit tasks in this project", db)
      else
        let statusChanged := !(task.status == newStatus)
        if statusChanged then
          let t1 := { task with
            status := newStatus
            activity := task.activity ++ [{ entryType := "status_changed", user := user }] }
          let db1 := taskSave true now t1 db
          let t1' := taskPreSave true now t1
          let t2 := { t1' with
            activity := t1'.activity ++ [{ entryType := "updated", user := user }] }
          let db2 := taskSave false now t2 db1
          (.ok 200 t2, db2)
        else
          let db1 := taskSave false now task db
          (.ok 200 task, db1)

/-- `Task.updateMany({'dependencies.task': t._id}, {$pull: {dependencies:
{task: t._id}}})` — the first database operation of the delete handler. -/
def pullDependenciesOp (tid : Nat) (tasks : List TaskDoc) : List TaskDoc :=
  tasks.map (fun u =>
    if u.dependencies.any (fun d => d.task == tid) then
      { u with dependencies := u.dependencies.filter (fun d => !(d.task == tid)) }
    else u)

/-- `task.deleteOne()` — the second database operation of the delete
handler. -/
def deleteOneOp (tid : Nat) (tasks : List TaskDoc) : List TaskDoc :=
  tasks.filter (fun u => !(u.id == tid))

/-- `DELETE /api/tasks/:id` (routes/tasks.js lines 575–618): find the task,
check owner-or-`canDeleteTasks`, then run the two sequential, untransacted
database operations `pullDependenciesOp` and `deleteOneOp`. -/
def deleteTask (user : Nat) (tid : Nat) (db : DB) : HResult Unit × DB :=
  match db.tasks.find? (fun u => u.id == tid) with
  | none => (.error 404 "Task not found", db)
  | some task =>
    match findProject db.projects task.project with
    | none => (.error 500 "Internal server error", db)
    | some project =>
      let isOwner := project.owner == user
      let memberEntry := project.members.find? (fun mem => mem.user == user)
      let lacksDelete := match memberEntry with
        | none => true
        | some mem => !mem.permissions.canDeleteTasks
      if !isOwner && lacksDelete then
        (.error 403 "Access denied - cannot delete tasks in this project", db)
      else
        let db1 : DB := { db with tasks := pullDependenciesOp task.id db.tasks }
        let db2 : DB := { db1 with tasks := deleteOneOp task.id db1.tasks }
        (.ok 200 (), db2)

/-- `GET /api/tasks/:id` (routes/tasks.js lines 404–441): find the task and
its populated project, and reject non-members with 403. -/
def getTask (user : Nat) (tid : Nat) (db : DB) : HResult TaskDoc × DB :=
  match db.tasks.find? (fun u => u.id == tid) with
  | none => (.error 404 "Task not found", db)
  | some task =>
    match findProject db.projects task.project with
    | none => (.error 500 "Internal server error", db)
    | some project =>
      let isOwner := project.owner == user
      let isMember := project.members.any (fun mem => mem.user == user)
      if !isOwner && !isMember then
        (.error 403 "Access denied - not a project member", db)
      else
        (.ok 200 task, db)

/-- `POST /api/tasks/:id/comments` (routes/tasks.js lines 623–716): find the
task and project, reject non-members with 403, else push the comment via
`task.addComment` (which saves).  Notification fan-out and socket emission
touch no modelled state. -/
def postTaskComment (user : Nat) (tid : Nat) (content : String) (mentions : List Nat)
    (now : Nat) (db : DB) : HResult Comment × DB :=
  match db.tasks.find? (fun u => u.id == tid) with
  | none => (.error 404 "Task not found", db)
  | some task =>
    match findProject db.projects task.project with
    | none => (.error 500 "Internal server error", db)
    | some project =>
      let isOwner := project.owner == user
      let isMember := project.members.any (fun mem => mem.user == user)
      if !isOwner && !isMember then
        (.error 403 "Access denied - not a project member", db)
      else
        let newComment : Comment := { author := user, content := content, mentions := mentions }
        let t1 := { task with comments := task.comments ++ [newComment] }
        let db1 := taskSave false now t1 db
        (.ok 201 newComment, db1)

/-- `GET /api/messages/project/:projectId` (routes/messages.js lines 55–190):
the `requireProjectMember` middleware (middleware/auth.js lines 94–137)
rejects non-members with 403 before the handler runs; the handler then
serves `Message.getByProject` (the `project` + `isDeleted: false` query;
sorting and pagination are not modelled). -/
def getProjectMessages (user : Nat) (pid : Nat) (db : DB) : HResult (List MessageDoc) × DB :=
  match findProject db.projects pid with
  | none => (.error 404 "Project not found", db)
  | some project =>
    let isOwner := project.owner == user
    let isMember := project.members.any (fun mem => mem.user == user)
    if !isOwner && !isMember then
      (.error 403 "Access denied - not a project member", db)
    else
      (.ok 200 (db.messages.filter (fun msg => msg.project == pid && !msg.isDeleted)), db)

/-- `POST /api/messages/:id/reactions` (routes/messages.js lines 448–503):
find the message and its populated project, reject non-members with 403,
else `message.addReaction`/`removeReaction` (which save).  The message
post-save statistics bump and socket emission touch no modelled state. -/
def postMessageReaction (user : Nat) (mid : Nat) (emoji : String) (action : String)
    (db : DB) : HResult MessageDoc × DB :=
  match db.messages.find? (fun msg => msg.id == mid) with
  | none => (.error 404 "Message not found", db)
  | some message =>
    match findProject db.projects message.project with
    | none => (.error 500 "Internal server error", db)
    | some project =>
      let isOwner := project.owner == user
      let isMember := project.members.any (fun mem => mem.user == user)
      if !isOwner && !isMember then
        (.error 403 "Access denied - not a project member", db)
      else
        let m1 := if action == "add" then message.addReaction emoji user
                  else message.removeReaction emoji user
        let db1 : DB :=
          { db with messages := db.messages.map (fun msg => if msg.id == m1.id then m1 else msg) }
        (.ok 200 m1, db1)

/-- `PUT /api/tasks/:id/status` (routes/tasks.js lines 723–818): find the
task and its populated project; the guard admits the owner, any member, or
the task's assignee (`!isOwner && !isMember && !isAssignee` → 403); then
`task.updateStatus` (set status, log activity, save).  `isModified('status')`
is true exactly when the assigned status differs.  Notification fan-out and
socket emission touch no modelled state. -/
def putTaskStatusRoute (user : Nat) (tid : Nat) (newStatus : TaskStatus) (now : Nat)
    (db : DB) : HResult TaskDoc × DB :=
  match db.tasks.find? (fun u => u.id == tid) with
  | none => (.error 404 "Task not found", db)
  | some task =>
    match findProject db.projects task.project with
    | none => (.error 500 "Internal server error", db)
    | some project =>
      let isOwner := project.owner == user
      let isMember := project.members.any (fun mem => mem.user == user)
      let isAssignee := match task.assignee with
        | none => false
        | some a => a == user
      if !isOwner && !isMember && !isAssignee then
        (.error 403 "Access denied", db)
      else
        let t1 := { task with
          status := newStatus
          activity := task.activity ++ [{ entryType := "status_changed", user := user }] }
        let db1 := taskSave (!(task.status == newStatus)) now t1 db
        (.ok 200 (taskPreSave (!(task.status == newStatus)) now t1), db1)

/-- `PUT /api/messages/:id` (routes/messages.js lines 353–400): find the
message and its populated project; the guard admits only the message author
or the project owner (membership is not consulted); then
`message.editContent` (which saves). -/
def putMessage (user : Nat) (mid : Nat) (content : String) (now : Nat) (db : DB) :
    HResult MessageDoc × DB :=
  match db.messages.find? (fun msg => msg.id == mid) with
  | none => (.error 404 "Message not found", db)
  | some message =>
    match findProject db.projects message.project with
    | none => (.error 500 "Internal server error", db)
    | some project =>
      let isAuthor := message.author == user
      let isProjectOwner := project.owner == user
      if !isAuthor && !isProjectOwner then
        (.error 403 "Access denied - can only edit your own messages", db)
      else
        let m1 := message.editContent content now
        let db1 : DB :=
          { db with messages := db.messages.map (fun msg => if msg.id == m1.id then m1 else msg) }
        (.ok 200 m1, db1)

/-- `DELETE /api/messages/:id` (routes/messages.js lines 406–443): same
author-or-project-owner guard as the edit route, then `message.softDelete`
(which saves). -/
def deleteMessage (user : Nat) (mid : Nat) (now : Nat) (db : DB) : HResult Unit × DB :=
  match db.messages.find? (fun msg => msg.id == mid) with
  | none => (.error 404 "Message not found", db)
  | some message =>
    match findProject db.projects message.project with
    | none => (.error 500 "Internal server error", db)
    | some project =>
      let isAuthor := message.author == user
      let isProjectOwner := project.owner == user
      if !isAuthor && !isProjectOwner then
        (.error 403 "Access denied - can only delete your own messages", db)
      else
        let m1 := message.softDelete now
        let db1 : DB :=
          { db with messages := db.messages.map (fun msg => if msg.id == m1.id then m1 else msg) }
        (.ok 200 (), db1)

/-! ### middleware/auth.js: authenticateToken, and the route table -/

/-- Outcome of `jwt.verify`: a decoded payload, a `JsonWebTokenError`, or a
`TokenExpiredError`. -/
inductive TokenVerify where
  | valid (userId : Nat)
  | malformed
  | expired
deriving Repr, DecidableEq

/-- A `User` document (the fields `authenticateToken` reads). -/
structure UserDoc where
  id : Nat
  isActive : Bool := true
deriving Repr, DecidableEq

/-- JS `String.prototype.split` with a one-character separator, on the
character list: split at every occurrence of `sep` (adjacent separators
yield empty segments, as in JS). -/
def jsSplit (sep : Char) : List Char → List (List Char)
  | [] => [[]]
  | c :: cs =>
    match jsSplit sep cs with
    | [] => [[]]
    | w :: ws => if c == sep then [] :: w :: ws else (c :: w) :: ws

/-- `authenticateToken` (middleware/auth.js lines 5–58): extract the bearer
token from the `Authorization` header (`authHeader.split(' ')[1]`, modelled
by `jsSplit` on the character list; the empty string is falsy, like a
missing token), verify it, look the user up and require `isActive`.
`verify` abstracts `jwt.verify` with the secret. -/
def authenticateToken (verify : String → TokenVerify) (users : List UserDoc)
    (authHeader : Option String) : HResult UserDoc :=
  let token : Option String :=
    match authHeader with
    | none => none
    | some h => ((jsSplit ' ' h.data).get? 1).map String.mk
  match token with
  | none => .error 401 "Access token is required"
  | some tok =>
    if tok == "" then .error 401 "Access token is required"
    else
      match verify tok with
      | .malformed => .error 401 "Invalid token"
      | .expired => .error 401 "Token expired"
      | .valid uid =>
        match users.find? (fun u => u.id == uid) with
        | none => .error 401 "Invalid token - user not found"
        | some u =>
          if !u.isActive then .error 401 "Account is deactivated"
          else .ok 200 u

/-- One REST route and whether `authenticateToken` guards it (either listed
in the route's own middleware chain, or applied where the router is
mounted). -/
structure RouteSpec where
  method : String
  path : String
  usesAuth : Bool
deriving Repr, DecidableEq

/-- The routes of routes/auth.js with their per-route middleware chains
(lines 81, 127, 179, 216–217, 232, 270, 314–315, 368–369, 387–388). -/
def authRoutes : List RouteSpec :=
  [ { method := "POST", path := "/api/auth/register", usesAuth := false },
    { method := "POST", path := "/api/auth/login", usesAuth := false },
    { method := "POST", path := "/api/auth/refresh", usesAuth := false },
    { method := "POST", path := "/api/auth/logout", usesAuth := true },
    { method := "POST", path := "/api/auth/forgot-password", usesAuth := false },
    { method := "POST", path := "/api/auth/reset-password/:token", usesAuth := false },
    { method := "POST", path := "/api/auth/change-password", usesAuth := true },
    { method := "GET", path := "/api/auth/me", usesAuth := true },
    { method := "POST", path := "/api/auth/verify-email", usesAuth := true } ]

/-- Modelled from the spec: the server entry point, which mounts the
routers, is not under src/.  Per the spec, "Bearer-token authentication is
required on all routes except registration/login/password-reset
initiation", so the project, task, message and notification routers are
mounted behind `authenticateToken` (a representative route per router). -/
def mountedRoutes : List RouteSpec :=
  [ { method := "GET", path := "/api/projects", usesAuth := true },
    { method := "GET", path := "/api/tasks/:id", usesAuth := true },
    { method := "PUT", path := "/api/tasks/:id", usesAuth := true },
    { method := "DELETE", path := "/api/tasks/:id", usesAuth := true },
    { method := "GET", path := "/api/messages/project/:projectId", usesAuth := true },
    { method := "POST", path := "/api/messages/:id/reactions", usesAuth := true },
    { method := "GET", path := "/api/notifications", usesAuth := true } ]

/-- The API route table the authentication claim ranges over. -/
def apiRoutes : List RouteSpec := authRoutes ++ mountedRoutes

/-! ### Response shapes (errorHandler.js and the route handlers) -/

/-- The shape of one JSON response body emitted somewhere in the backend:
which of the fields `success` (a boolean), `message`, `data`, and
`error`/`errors` it contains, the HTTP status it is sent with, and whether
it comes from one of the placeholder controllers (routes/projects.js and
the user router), which answer `{message}` only. -/
structure RespShape where
  origin : String
  httpStatus : Nat
  hasSuccess : Bool
  hasMessage : Bool
  hasData : Bool
  hasErrorField : Bool
  fromPlaceholder : Bool := false
deriving Repr, DecidableEq

/-- The `GET /api/auth/me` success body (routes/auth.js lines 368–382):
`{success: true, data: {user}}` — no `message` field. -/
def authMeResponse : RespShape :=
  { origin := "GET /api/auth/me 200", httpStatus := 200,
    hasSuccess := true, hasMessage := false, hasData := true, hasErrorField := false }

/-- The JSON response bodies of the backend, one entry per distinct body
shape per emitting site: the error-handling middleware (every shape of
errorHandler.js and middleware/auth.js), the implemented auth/task/message
route handlers (all of which answer `{success, ...}`), and the placeholder
project and user controllers (routes/projects.js lines 5–21 and the user
router lines 5–18), which answer `{message}` only, with no `success`
field. -/
def observedResponses : List RespShape :=
  [ -- sendErrorProd, operational error (errorHandler.js lines 61–68)
    { origin := "sendErrorProd operational", httpStatus := 403,
      hasSuccess := true, hasMessage := true, hasData := false, hasErrorField := false },
    -- sendErrorProd, unknown error (errorHandler.js lines 70–78)
    { origin := "sendErrorProd unknown", httpStatus := 500,
      hasSuccess := true, hasMessage := true, hasData := false, hasErrorField := false },
    -- sendErrorDev (errorHandler.js lines 51–58): {success, error, message, stack}
    { origin := "sendErrorDev", httpStatus := 500,
      hasSuccess := true, hasMessage := true, hasData := false, hasErrorField := true },
    -- handleValidationErrors (errorHandler.js lines 82–100): {success, message, errors}
    { origin := "handleValidationErrors 400", httpStatus := 400,
      hasSuccess := true, hasMessage := true, hasData := false, hasErrorField := true },
    -- authenticateToken 401 bodies (middleware/auth.js lines 10–49)
    { origin := "authenticateToken 401", httpStatus := 401,
      hasSuccess := true, hasMessage := true, hasData := false, hasErrorField := false },
    -- requireProjectMember 403 (middleware/auth.js lines 121–126)
    { origin := "requireProjectMember 403", httpStatus := 403,
      hasSuccess := true, hasMessage := true, hasData := false, hasErrorField := false },
    -- POST /api/auth/login 200 (routes/auth.js lines 160–173)
    { origin := "POST /api/auth/login 200", httpStatus := 200,
      hasSuccess := true, hasMessage := true, hasData := true, hasErrorField := false },
    authMeResponse,
    -- GET /api/tasks/:id 200 (routes/tasks.js lines 436–439): {success, data}
    { origin := "GET /api/tasks/:id 200", httpStatus := 200,
      hasSuccess := true, hasMessage := false, hasData := true, hasErrorField := false },
    -- PUT /api/tasks/:id 200 (routes/tasks.js lines 564–568)
    { origin := "PUT /api/tasks/:id 200", httpStatus := 200,
      hasSuccess := true, hasMessage := true, hasData := true, hasErrorField := false },
    -- DELETE /api/tasks/:id 200 (routes/tasks.js lines 613–616): {success, message}
    { origin := "DELETE /api/tasks/:id 200", httpStatus := 200,
      hasSuccess := true, hasMessage := true, hasData := false, hasErrorField := false },
    -- POST /api/messages/:id/reactions 200 (routes/messages.js lines 494–502)
    { origin := "POST /api/messages/:id/reactions 200", httpStatus := 200,
      hasSuccess := true, hasMessage := true, hasData := true, hasErrorField := false },
    -- authRateLimit 429 (middleware/auth.js lines 204–210): {success, message, retryAfter}
    { origin := "authRateLimit 429", httpStatus := 429,
      hasSuccess := true, hasMessage := true, hasData := false, hasErrorField := false },
    -- PUT /api/tasks/:id/status 200 (routes/tasks.js lines 808–818)
    { origin := "PUT /api/tasks/:id/status 200", httpStatus := 200,
      hasSuccess := true, hasMessage := true, hasData := true, hasErrorField := false },
    -- PUT /api/messages/:id 200 (routes/messages.js lines 394–399)
    { origin := "PUT /api/messages/:id 200", httpStatus := 200,
      hasSuccess := true, hasMessage := true, hasData := true, hasErrorField := false },
    -- DELETE /api/messages/:id 200 (routes/messages.js lines 437–441): {success, message}
    { origin := "DELETE /api/messages/:id 200", httpStatus := 200,
      hasSuccess := true, hasMessage := true, hasData := false, hasErrorField := false },
    -- POST /api/auth/refresh 200 (routes/auth.js lines 200–207)
    { origin := "POST /api/auth/refresh 200", httpStatus := 200,
      hasSuccess := true, hasMessage := true, hasData := true, hasErrorField := false },
    -- GET /api/notifications 200 (routes/notification.js lines 80–95): {success, data}
    { origin := "GET /api/notifications 200", httpStatus := 200,
      hasSuccess := true, hasMessage := false, hasData := true, hasErrorField := false },
    -- placeholder project controller (routes/projects.js lines 5–21): {message} only
    { origin := "GET /api/projects 200 placeholder", httpStatus := 200,
      hasSuccess := false, hasMessage := true, hasData := false, hasErrorField := false,
      fromPlaceholder := true },
    { origin := "GET /api/projects/:id 200 placeholder", httpStatus := 200,
      hasSuccess := false, hasMessage := true, hasData := false, hasErrorField := false,
      fromPlaceholder := true },
    { origin := "POST /api/projects 201 placeholder", httpStatus := 201,
      hasSuccess := false, hasMessage := true, hasData := false, hasErrorField := false,
      fromPlaceholder := true },
    { origin := "PUT /api/projects/:id 200 placeholder", httpStatus := 200,
      hasSuccess := false, hasMessage := true, hasData := false, hasErrorField := false,
      fromPlaceholder := true },
    { origin := "DELETE /api/projects/:id 200 placeholder", httpStatus := 200,
      hasSuccess := false, hasMessage := true, hasData := false, hasErrorField := false,
      fromPlaceholder := true },
    -- placeholder user controller (user router lines 5–18): {message} only
    { origin := "GET /api/users 200 placeholder", httpStatus := 200,
      hasSuccess := false, hasMessage := true, hasData := false, hasErrorField := false,
      fromPlaceholder := true },
    { origin := "GET /api/users/:id 200 placeholder", httpStatus := 200,
      hasSuccess := false, hasMessage := true, hasData := false, hasErrorField := false,
      fromPlaceholder := true },
    { origin := "PUT /api/users/:id 200 placeholder", httpStatus := 200,
      hasSuccess := false, hasMessage := true, hasData := false, hasErrorField := false,
      fromPlaceholder := true },
    { origin := "DELETE /api/users/:id 200 placeholder", httpStatus := 200,
      hasSuccess := false, hasMessage := true, hasData := false, hasErrorField := false,
      fromPlaceholder := true } ]

/-- The derived-progress invariant of a project record relative to the
task collection: the stored counters agree with the tasks referencing the
project, and the percentage is the rounded completion ratio (0 for a
project with no tasks). -/
def progressInv (tasks : List TaskDoc) (p : ProjectDoc) : Prop :=
  p.progress.totalTasks = (tasks.filter (fun t => t.project == p.id)).length
  ∧ p.progress.completedTasks =
      ((tasks.filter (fun t => t.project == p.id)).filter
        (fun t => t.status == TaskStatus.completed)).length
  ∧ p.progress.percentage =
      (if 0 < (tasks.filter (fun t => t.project == p.id)).length then
        mathRound (100 *
          (((tasks.filter (fun t => t.project == p.id)).filter
            (fun t => t.status == TaskStatus.completed)).length : ℚ) /
          ((tasks.filter (fun t => t.project == p.id)).length : ℚ))
      else 0)

/-- The reaction-list invariant: every entry's `count` equals the length
of its `users` list, no user appears twice in one entry, and no entry has
an empty `users` list. -/
def reactionsWF (rs : List Reaction) : Prop :=
  ∀ r ∈ rs, r.count = r.users.length ∧ r.users.Nodup ∧ r.users ≠ []

/-! ## Helper lemmas -/

theorem mem_updateFirst {α : Type} (p : α → Bool) (f : α → α) (l : List α) :
    ∀ x ∈ updateFirst p f l, x ∈ l ∨ ∃ a ∈ l, p a = true ∧ x = f a := by
  induction l with
  | nil => intro x hx; exact absurd hx (by simp [updateFirst])
  | cons a as ih =>
      intro x hx
      unfold updateFirst at hx
      by_cases hpa : p a = true
      · rw [if_pos hpa] at hx
        rcases List.mem_cons.mp hx with h1 | h2
        · exact Or.inr ⟨a, List.mem_cons_self a as, hpa, h1⟩
        · exact Or.inl (List.mem_cons_of_mem a h2)
      · rw [if_neg hpa] at hx
        rcases List.mem_cons.mp hx with h1 | h2
        · exact Or.inl (h1 ▸ List.mem_cons_self a as)
        · rcases ih x h2 with h3 | ⟨b, hb, hpb, hx'⟩
          · exact Or.inl (List.mem_cons_of_mem a h3)
          · exact Or.inr ⟨b, List.mem_cons_of_mem a hb, hpb, hx'⟩

theorem updateFirst_append_left {α : Type} (p : α → Bool) (f : α → α) (l l2 : List α)
    (h : l.find? p = none) : updateFirst p f (l ++ l2) = l ++ updateFirst p f l2 := by
  induction l with
  | nil => simp
  | cons a as ih =>
      rw [List.find?_cons] at h
      rcases hpa : p a with _ | _
      · rw [hpa] at h
        simp only [List.cons_append, updateFirst, hpa]
        simp [ih h]
      · rw [hpa] at h
        exact absurd h (by simp)

theorem find?_append_none {α : Type} (p : α → Bool) (l l2 : List α)
    (h : l.find? p = none) : (l ++ l2).find? p = l2.find? p := by
  induction l with
  | nil => simp
  | cons a as ih =>
      rw [List.find?_cons] at h
      rcases hpa : p a with _ | _
      · rw [hpa] at h
        simp only [List.cons_append, List.find?_cons, hpa]
        exact ih h
      · rw [hpa] at h
        exact absurd h (by simp)

theorem find?_updateFirst {α : Type} (p : α → Bool) (f : α → α) (l : List α) (r : α)
    (hp : ∀ a, p (f a) = p a) (h : l.find? p = some r) :
    (updateFirst p f l).find? p = some (f r) := by
  induction l with
  | nil => exact absurd h (by simp)
  | cons a as ih =>
      rw [List.find?_cons] at h
      rcases hpa : p a with _ | _
      · rw [hpa] at h
        dsimp only at h
        simp only [updateFirst, hpa, Bool.false_eq_true, if_false, List.find?_cons]
        exact ih h
      · rw [hpa] at h
        dsimp only at h
        injection h with h
        subst h
        simp [updateFirst, hpa, List.find?_cons, hp]

theorem updateFirst_updateFirst {α : Type} (p : α → Bool) (f : α → α) (l : List α)
    (hp : ∀ a, p (f a) = p a) (hf : ∀ a, f (f a) = f a) :
    updateFirst p f (updateFirst p f l) = updateFirst p f l := by
  induction l with
  | nil => rfl
  | cons a as ih =>
      rcases hpa : p a with _ | _
      · simp only [updateFirst, hpa, Bool.false_eq_true, if_false, ih]
      · simp only [updateFirst, hpa, if_true, hp a, hf a]

theorem addReaction_wf (m : MessageDoc) (emoji : String) (u : Nat)
    (h : reactionsWF m.reactions) : reactionsWF (m.addReaction emoji u).reactions := by
  unfold MessageDoc.addReaction
  cases hfind : m.reactions.find? (fun r => r.emoji == emoji) with
  | none =>
      dsimp only
      intro r hr
      rcases List.mem_append.mp hr with h1 | h2
      · exact h r h1
      · simp only [List.mem_singleton] at h2
        subst h2
        exact ⟨rfl, List.nodup_singleton u, by simp⟩
  | some r0 =>
      dsimp only
      intro r hr
      rcases mem_updateFirst _ _ _ r hr with h1 | ⟨a, ha, hpa, rfl⟩
      · exact h r h1
      · obtain ⟨hcount, hnodup, hne⟩ := h a ha
        by_cases hc : a.users.contains u = true
        · simp only [hc, if_true]
          exact h a ha
        · have hu : u ∉ a.users := by simpa using hc
          simp only [eq_false_of_ne_true hc, Bool.false_eq_true, if_false]
          refine ⟨by simp [hcount], ?_, by simp⟩
          simp [List.nodup_append, hnodup, hu]

theorem removeReaction_wf (m : MessageDoc) (emoji : String) (u : Nat)
    (h : reactionsWF m.reactions) : reactionsWF (m.removeReaction emoji u).reactions := by
  unfold MessageDoc.removeReaction
  cases hfind : m.reactions.find? (fun r => r.emoji == emoji) with
  | none =>
      dsimp only
      exact h
  | some r0 =>
      dsimp only
      obtain ⟨hc0, hn0, _⟩ := h r0 (List.mem_of_find?_eq_some hfind)
      split
      · next hz =>
          intro r hr
          have hr' := List.mem_of_mem_filter hr
          have hemoji : ¬(r.emoji == emoji) = true := by
            have := List.of_mem_filter hr
            simpa using this
          rcases mem_updateFirst _ _ _ r hr' with h1 | ⟨a, ha, hpa, rfl⟩
          · exact h r h1
          · exact absurd hpa hemoji
      · next hz =>
          intro r hr
          rcases mem_updateFirst _ _ _ r hr with h1 | ⟨a, ha, hpa, rfl⟩
          · exact h r h1
          · refine ⟨rfl, hn0.filter _, ?_⟩
            intro hnil
            have hnil' : List.filter (fun u' => !(u' == u)) r0.users = [] := by
              simpa using hnil
            apply hz
            rw [hnil']
            rfl

theorem addReaction_idem (m : MessageDoc) (emoji : String) (u : Nat) :
    (m.addReaction emoji u).addReaction emoji u = m.addReaction emoji u := by
  have hp : ∀ a : Reaction,
      (((fun r : Reaction =>
          if r.users.contains u then r
          else { r with users := r.users ++ [u], count := r.count + 1 }) a).emoji == emoji)
        = (a.emoji == emoji) := by
    intro a
    by_cases hc : u ∈ a.users <;> simp [hc]
  have hf : ∀ a : Reaction,
      ((fun r : Reaction =>
          if r.users.contains u then r
          else { r with users := r.users ++ [u], count := r.count + 1 })
        ((fun r : Reaction =>
          if r.users.contains u then r
          else { r with users := r.users ++ [u], count := r.count + 1 }) a))
        = ((fun r : Reaction =>
          if r.users.contains u then r
          else { r with users := r.users ++ [u], count := r.count + 1 }) a) := by
    intro a
    by_cases hc : u ∈ a.users <;> simp [hc]
  unfold MessageDoc.addReaction
  cases hfind : m.reactions.find? (fun r => r.emoji == emoji) with
  | none =>
      dsimp only
      have hn : (m.reactions ++
            ([{ emoji := emoji, users := [u], count := 1 }] : List Reaction)).find?
          (fun r => r.emoji == emoji) = some { emoji := emoji, users := [u], count := 1 } := by
        rw [find?_append_none _ _ _ hfind]
        simp
      rw [hn]
      dsimp only
      rw [updateFirst_append_left _ _ _ _ hfind]
      simp [updateFirst]
  | some r0 =>
      dsimp only
      rw [find?_updateFirst _ _ _ _ hp hfind]
      dsimp only
      rw [updateFirst_updateFirst _ _ _ hp hf]

theorem mathRound_hundred : mathRound 100 = 100 := by
  unfold mathRound
  rw [Int.floor_eq_iff]
  norm_num

theorem mathRound_ratio_self (n : ℕ) (hn : n ≠ 0) :
    mathRound ((n : ℚ) / (n : ℚ) * 100) = 100 := by
  have h : (n : ℚ) / (n : ℚ) = 1 := div_self (by exact_mod_cast hn)
  rw [h, one_mul, mathRound_hundred]

/-! ## Claim theorems -/

/-- C9: `addReaction` and `removeReaction` preserve the reaction-list
invariant (`count` = number of users, no duplicate user per entry, no
empty entry), and `addReaction` is idempotent for a fixed user and
emoji. -/
theorem reaction_invariants (m : MessageDoc) (emoji : String) (u : Nat) :
    (reactionsWF m.reactions → reactionsWF (m.addReaction emoji u).reactions)
  ∧ (reactionsWF m.reactions → reactionsWF (m.removeReaction emoji u).reactions)
  ∧ (m.addReaction emoji u).addReaction emoji u = m.addReaction emoji u :=
  ⟨addReaction_wf m emoji u, removeReaction_wf m emoji u, addReaction_idem m emoji u⟩

/-- Witness for C9: user 1 reacts "x" on a message that already carries an
"x" reaction by user 4. -/
theorem reaction_invariants_witness :
    reactionsWF (({ id := 3, project := 10, author := 7, reactions := [{ emoji := "x", users := [4], count := 1 }] } : MessageDoc).addReaction
          "x" 1).reactions
  ∧ (({ id := 3, project := 10, author := 7, reactions := [{ emoji := "x", users := [4], count := 1 }] } : MessageDoc).addReaction
          "x" 1).addReaction "x" 1
      = ({ id := 3, project := 10, author := 7, reactions := [{ emoji := "x", users := [4], count := 1 }] } : MessageDoc).addReaction
            "x" 1 :=
  ⟨(reaction_invariants { id := 3, project := 10, author := 7, reactions := [{ emoji := "x", users := [4], count := 1 }] } "x" 1).1
      (by simp [reactionsWF]),
   (reaction_invariants { id := 3, project := 10, author := 7, reactions := [{ emoji := "x", users := [4], count := 1 }] } "x" 1).2.2⟩

/-- C10: `markAsRead` is idempotent (a notification already read is
returned unchanged and no write is issued) and `markAsUnread` after
`markAsRead` leaves `isRead = false`, `readAt = null`. -/
theorem markAsRead_idem_markAsUnread_inverts (now : Nat) (n : NotificationDoc) :
    (n.isRead = true → n.markAsRead now = (n, false))
  ∧ ((n.markAsRead now).1.markAsUnread.1 = { n with isRead := false, readAt := none }) := by
  constructor
  · intro h
    simp [NotificationDoc.markAsRead, h]
  · rcases hn : n.isRead <;>
      simp [NotificationDoc.markAsRead, NotificationDoc.markAsUnread, hn]

/-- Witness for C10 at a concrete already-read notification. -/
theorem markAsRead_idem_markAsUnread_inverts_witness :
    ({ id := 1, recipient := 2, isRead := true, readAt := some 5 } : NotificationDoc).markAsRead 9
      = ({ id := 1, recipient := 2, isRead := true, readAt := some 5 }, false) :=
  (markAsRead_idem_markAsUnread_inverts 9 _).1 rfl

/-- C1: after `updateProgress` (whose trailing save runs the project
pre-save hook), a project all of whose tasks are completed has
`progress.percentage = 100`, and a project with no tasks has
`progress.percentage = 0`. -/
theorem updateProgress_all_completed (tasks : List TaskDoc) (p : ProjectDoc) (now : Nat) :
    (tasks.filter (fun t => t.project == p.id) ≠ [] →
      (∀ t ∈ tasks.filter (fun t => t.project == p.id), t.status = TaskStatus.completed) →
      (p.updateProgress tasks now).progress.percentage = 100)
  ∧ (tasks.filter (fun t => t.project == p.id) = [] →
      (p.updateProgress tasks now).progress.percentage = 0) := by
  constructor
  · intro hne hall
    have hfl : (tasks.filter (fun t => t.project == p.id)).filter
        (fun t => t.status == TaskStatus.completed) = tasks.filter (fun t => t.project == p.id) :=
      List.filter_eq_self.mpr (fun t ht => beq_iff_eq.mpr (hall t ht))
    have hpos : 0 < (tasks.filter (fun t => t.project == p.id)).length :=
      List.length_pos.mpr hne
    simp only [ProjectDoc.updateProgress, projectSave, projectPreSave, hfl]
    simp only [hpos, if_pos, gt_iff_lt]
    exact mathRound_ratio_self _ (Nat.pos_iff_ne_zero.mp hpos)
  · intro hnil
    simp only [ProjectDoc.updateProgress, projectSave, projectPreSave, hnil]
    simp

/-- Witness for C1: one completed task gives 100; no tasks gives 0. -/
theorem updateProgress_all_completed_witness :
    (({ id := 10, owner := 7 } : ProjectDoc).updateProgress
        [{ id := 1, project := 10, status := TaskStatus.completed }] 5).progress.percentage = 100
  ∧ (({ id := 10, owner := 7 } : ProjectDoc).updateProgress [] 5).progress.percentage = 0 :=
  ⟨(updateProgress_all_completed
      [{ id := 1, project := 10, status := TaskStatus.completed }] { id := 10, owner := 7 } 5).1
      (by decide) (by decide),
   (updateProgress_all_completed [] { id := 10, owner := 7 } 5).2 rfl⟩

theorem updateProgress_progressInv (tasks : List TaskDoc) (now : Nat) (p : ProjectDoc) :
    (p.updateProgress tasks now).id = p.id ∧ progressInv tasks (p.updateProgress tasks now) := by
  unfold progressInv ProjectDoc.updateProgress projectSave projectPreSave
  by_cases hpos : 0 < (tasks.filter (fun t => t.project == p.id)).length
  · simp only [hpos, if_pos, gt_iff_lt]
    refine ⟨trivial, trivial, trivial, ?_⟩
    congr 1
    ring
  · simp [hpos]

theorem taskPreSave_project (sm : Bool) (now : Nat) (t : TaskDoc) :
    (taskPreSave sm now t).project = t.project := by
  unfold taskPreSave
  split_ifs <;> rfl

theorem taskPostSave_progressInv (doc : TaskDoc) (now : Nat) (db : DB) :
    ∀ p ∈ (taskPostSave doc now db).projects, p.id = doc.project →
      progressInv (taskPostSave doc now db).tasks p := by
  unfold taskPostSave
  cases hfind : findProject db.projects doc.project with
  | none =>
      dsimp only
      intro p hp hpid
      exfalso
      unfold findProject at hfind
      have hne := List.find?_eq_none.mp hfind p hp
      exact hne (beq_iff_eq.mpr hpid)
  | some p0 =>
      dsimp only
      intro p hp hpid
      rcases List.mem_map.mp hp with ⟨q, hq, rfl⟩
      by_cases hqid : (q.id == p0.id) = true
      · rw [if_pos hqid]
        exact (updateProgress_progressInv db.tasks now p0).2
      · exfalso
        rw [if_neg hqid] at hpid
        have hp0 : p0.id = doc.project := by
          unfold findProject at hfind
          have := List.find?_some hfind
          simpa using this
        exact hqid (beq_iff_eq.mpr (hpid.trans hp0.symm))

/-- C2: after any task save completes, the saved task's project (as stored)
satisfies the derived-progress invariant: `totalTasks` counts the tasks of
the project, `completedTasks` counts its completed tasks, and `percentage`
is `round(100 * completedTasks / totalTasks)` (0 when there are no
tasks). -/
theorem taskSave_progressInv (sm : Bool) (now : Nat) (t : TaskDoc) (db : DB) :
    ∀ p ∈ (taskSave sm now t db).projects, p.id = t.project →
      progressInv (taskSave sm now t db).tasks p := by
  intro p hp hpid
  unfold taskSave at hp ⊢
  exact taskPostSave_progressInv (taskPreSave sm now t) now
    { db with tasks := persistTask (taskPreSave sm now t) db.tasks } p hp
    (hpid.trans (taskPreSave_project sm now t).symm)

/-- Witness for C2: saving a fresh todo task into a one-project store. -/
theorem taskSave_progressInv_witness :
    progressInv
      (taskSave true 5 { id := 1, project := 10 }
        { tasks := [], projects := [{ id := 10, owner := 7 }], messages := [] }).tasks
      (ProjectDoc.updateProgress
        (persistTask (taskPreSave true 5 { id := 1, project := 10 }) []) 5
        { id := 10, owner := 7 }) :=
  taskSave_progressInv true 5 { id := 1, project := 10 }
    { tasks := [], projects := [{ id := 10, owner := 7 }], messages := [] }
    _ (by simp [taskSave, taskPostSave, persistTask, findProject, taskPreSave])
    ((updateProgress_progressInv _ 5 _).1)

theorem taskPreSave_status (sm : Bool) (now : Nat) (t : TaskDoc) :
    (taskPreSave sm now t).status = t.status := by
  unfold taskPreSave
  split_ifs <;> rfl

theorem putTaskStatusRoute_assignee_ok (user tid : Nat) (newStatus : TaskStatus) (now : Nat)
    (db : DB) (task : TaskDoc) (project : ProjectDoc)
    (htask : db.tasks.find? (fun u => u.id == tid) = some task)
    (hproj : findProject db.projects task.project = some project)
    (hass : task.assignee = some user) :
    ∃ t' db', putTaskStatusRoute user tid newStatus now db = (.ok 200 t', db')
      ∧ t'.status = newStatus := by
  unfold putTaskStatusRoute
  rw [htask]
  dsimp only
  rw [hproj]
  dsimp only
  rw [hass]
  dsimp only
  simp only [beq_self_eq_true, Bool.not_true, Bool.and_false, Bool.false_eq_true, if_false]
  exact ⟨_, _, rfl, by simp [taskPreSave_status]⟩

theorem putMessage_author_ok (user mid : Nat) (content : String) (now : Nat)
    (db : DB) (message : MessageDoc) (project : ProjectDoc)
    (hmsg : db.messages.find? (fun msg => msg.id == mid) = some message)
    (hproj : findProject db.projects message.project = some project)
    (hauthor : message.author = user) :
    ∃ m' db', putMessage user mid content now db = (.ok 200 m', db') := by
  unfold putMessage
  rw [hmsg]
  dsimp only
  rw [hproj]
  dsimp only
  simp only [hauthor, beq_self_eq_true, Bool.not_true, Bool.false_and, Bool.false_eq_true,
    if_false]
  exact ⟨_, _, rfl⟩

theorem deleteMessage_author_ok (user mid : Nat) (now : Nat)
    (db : DB) (message : MessageDoc) (project : ProjectDoc)
    (hmsg : db.messages.find? (fun msg => msg.id == mid) = some message)
    (hproj : findProject db.projects message.project = some project)
    (hauthor : message.author = user) :
    ∃ db', deleteMessage user mid now db = (.ok 200 (), db') := by
  unfold deleteMessage
  rw [hmsg]
  dsimp only
  rw [hproj]
  dsimp only
  simp only [hauthor, beq_self_eq_true, Bool.not_true, Bool.false_and, Bool.false_eq_true,
    if_false]
  exact ⟨_, rfl⟩

/-- Counterexample to C5 as stated: user 5 is neither the owner of project
10 nor in its members array, but is task 1's assignee, and the
project-scoped route `PUT /api/tasks/:id/status` accepts their request
instead of failing with 403. -/
theorem nonmember_assignee_status_ok :
    ∃ t' db', putTaskStatusRoute 5 1 TaskStatus.completed 0
      { tasks := [{ id := 1, project := 10, assignee := some 5 }]
        projects := [{ id := 10, owner := 7 }]
        messages := [] } = (.ok 200 t', db')
      ∧ t'.status = TaskStatus.completed :=
  putTaskStatusRoute_assignee_ok 5 1 TaskStatus.completed 0
    { tasks := [{ id := 1, project := 10, assignee := some 5 }]
      projects := [{ id := 10, owner := 7 }]
      messages := [] }
    { id := 1, project := 10, assignee := some 5 } { id := 10, owner := 7 }
    (by decide) (by decide) rfl

/-- C5 (amended): for an authenticated user who is neither the owner of the
addressed resource's project nor in its members array: `GET /api/tasks/:id`,
`POST /api/tasks/:id/comments`, `GET /api/messages/project/:projectId` and
`POST /api/messages/:id/reactions` fail with 403 and leave the database
state unchanged (given the resource and its project exist), and so do
`PUT /api/tasks/:id/status` when the user is also not the task's assignee
and `PUT`/`DELETE /api/messages/:id` when the user is not the message's
author; but not every project-scoped route behaves so:
`PUT /api/tasks/:id/status` admits the task's assignee and
`PUT`/`DELETE /api/messages/:id` admit the message's author, member or
not. -/
theorem nonmember_routes_403 (user : Nat) (db : DB) :
    (∀ tid task project,
        db.tasks.find? (fun u => u.id == tid) = some task →
        findProject db.projects task.project = some project →
        (project.owner == user || project.members.any (fun mem => mem.user == user)) = false →
        getTask user tid db = (.error 403 "Access denied - not a project member", db))
  ∧ (∀ tid content mentions now task project,
        db.tasks.find? (fun u => u.id == tid) = some task →
        findProject db.projects task.project = some project →
        (project.owner == user || project.members.any (fun mem => mem.user == user)) = false →
        postTaskComment user tid content mentions now db
          = (.error 403 "Access denied - not a project member", db))
  ∧ (∀ pid project,
        findProject db.projects pid = some project →
        (project.owner == user || project.members.any (fun mem => mem.user == user)) = false →
        getProjectMessages user pid db = (.error 403 "Access denied - not a project member", db))
  ∧ (∀ mid emoji action message project,
        db.messages.find? (fun msg => msg.id == mid) = some message →
        findProject db.projects message.project = some project →
        (project.owner == user || project.members.any (fun mem => mem.user == user)) = false →
        postMessageReaction user mid emoji action db
          = (.error 403 "Access denied - not a project member", db))
  ∧ (∀ tid newStatus now task project,
        db.tasks.find? (fun u => u.id == tid) = some task →
        findProject db.projects task.project = some project →
        (project.owner == user || project.members.any (fun mem => mem.user == user)) = false →
        (match task.assignee with | none => false | some a => a == user) = false →
        putTaskStatusRoute user tid newStatus now db = (.error 403 "Access denied", db))
  ∧ (∀ tid newStatus now task project,
        db.tasks.find? (fun u => u.id == tid) = some task →
        findProject db.projects task.project = some project →
        (project.owner == user || project.members.any (fun mem => mem.user == user)) = false →
        task.assignee = some user →
        ∃ t' db', putTaskStatusRoute user tid newStatus now db = (.ok 200 t', db')
          ∧ t'.status = newStatus)
  ∧ (∀ mid content now message project,
        db.messages.find? (fun msg => msg.id == mid) = some message →
        findProject db.projects message.project = some project →
        (message.author == user) = false → (project.owner == user) = false →
        putMessage user mid content now db
          = (.error 403 "Access denied - can only edit your own messages", db))
  ∧ (∀ mid content now message project,
        db.messages.find? (fun msg => msg.id == mid) = some message →
        findProject db.projects message.project = some project →
        (project.owner == user || project.members.any (fun mem => mem.user == user)) = false →
        message.author = user →
        ∃ m' db', putMessage user mid content now db = (.ok 200 m', db'))
  ∧ (∀ mid now message project,
        db.messages.find? (fun msg => msg.id == mid) = some message →
        findProject db.projects message.project = some project →
        (message.author == user) = false → (project.owner == user) = false →
        deleteMessage user mid now db
          = (.error 403 "Access denied - can only delete your own messages", db))
  ∧ (∀ mid now message project,
        db.messages.find? (fun msg => msg.id == mid) = some message →
        findProject db.projects message.project = some project →
        (project.owner == user || project.members.any (fun mem => mem.user == user)) = false →
        message.author = user →
        ∃ db', deleteMessage user mid now db = (.ok 200 (), db')) := by
  refine ⟨?_, ?_, ?_, ?_, ?_, ?_, ?_, ?_, ?_, ?_⟩
  · intro tid task project htask hproj hnm
    rcases Bool.or_eq_false_iff.mp hnm with ⟨h1, h2⟩
    unfold getTask
    rw [htask]
    dsimp only
    rw [hproj]
    dsimp only
    simp [h1, h2]
  · intro tid content mentions now task project htask hproj hnm
    rcases Bool.or_eq_false_iff.mp hnm with ⟨h1, h2⟩
    unfold postTaskComment
    rw [htask]
    dsimp only
    rw [hproj]
    dsimp only
    simp [h1, h2]
  · intro pid project hproj hnm
    rcases Bool.or_eq_false_iff.mp hnm with ⟨h1, h2⟩
    unfold getProjectMessages
    rw [hproj]
    dsimp only
    simp [h1, h2]
  · intro mid emoji action message project hmsg hproj hnm
    rcases Bool.or_eq_false_iff.mp hnm with ⟨h1, h2⟩
    unfold postMessageReaction
    rw [hmsg]
    dsimp only
    rw [hproj]
    dsimp only
    simp [h1, h2]
  · intro tid newStatus now task project htask hproj hnm hass
    rcases Bool.or_eq_false_iff.mp hnm with ⟨h1, h2⟩
    unfold putTaskStatusRoute
    rw [htask]
    dsimp only
    rw [hproj]
    dsimp only
    simp [h1, h2, hass]
  · intro tid newStatus now task project htask hproj _ hass
    exact putTaskStatusRoute_assignee_ok user tid newStatus now db task project htask hproj hass
  · intro mid content now message project hmsg hproj hA hO
    unfold putMessage
    rw [hmsg]
    dsimp only
    rw [hproj]
    dsimp only
    simp [hA, hO]
  · intro mid content now message project hmsg hproj _ hauthor
    exact putMessage_author_ok user mid content now db message project hmsg hproj hauthor
  · intro mid now message project hmsg hproj hA hO
    unfold deleteMessage
    rw [hmsg]
    dsimp only
    rw [hproj]
    dsimp only
    simp [hA, hO]
  · intro mid now message project hmsg hproj _ hauthor
    exact deleteMessage_author_ok user mid now db message project hmsg hproj hauthor

/-- Witness for C5: user 99 is neither owner 7 nor member 2 of project 10,
so three sampled routes answer 403 with the store unchanged; user 42 is a
non-member but the author of message 3, and edits it successfully. -/
theorem nonmember_routes_403_witness :
    getTask 99 1
      { tasks := [{ id := 1, project := 10 }]
        projects := [{ id := 10, owner := 7, members := [{ user := 2 }] }]
        messages := [{ id := 3, project := 10, author := 42 }] }
      = (.error 403 "Access denied - not a project member",
         { tasks := [{ id := 1, project := 10 }]
           projects := [{ id := 10, owner := 7, members := [{ user := 2 }] }]
           messages := [{ id := 3, project := 10, author := 42 }] })
  ∧ postMessageReaction 99 3 "+1" "add"
      { tasks := [{ id := 1, project := 10 }]
        projects := [{ id := 10, owner := 7, members := [{ user := 2 }] }]
        messages := [{ id := 3, project := 10, author := 42 }] }
      = (.error 403 "Access denied - not a project member",
         { tasks := [{ id := 1, project := 10 }]
           projects := [{ id := 10, owner := 7, members := [{ user := 2 }] }]
           messages := [{ id := 3, project := 10, author := 42 }] })
  ∧ putTaskStatusRoute 99 1 TaskStatus.completed 0
      { tasks := [{ id := 1, project := 10 }]
        projects := [{ id := 10, owner := 7, members := [{ user := 2 }] }]
        messages := [{ id := 3, project := 10, author := 42 }] }
      = (.error 403 "Access denied",
         { tasks := [{ id := 1, project := 10 }]
           projects := [{ id := 10, owner := 7, members := [{ user := 2 }] }]
           messages := [{ id := 3, project := 10, author := 42 }] })
  ∧ ∃ m' db', putMessage 42 3 "hi" 0
      { tasks := [{ id := 1, project := 10 }]
        projects := [{ id := 10, owner := 7, members := [{ user := 2 }] }]
        messages := [{ id := 3, project := 10, author := 42 }] }
      = (.ok 200 m', db') :=
  ⟨(nonmember_routes_403 99
      { tasks := [{ id := 1, project := 10 }]
        projects := [{ id := 10, owner := 7, members := [{ user := 2 }] }]
        messages := [{ id := 3, project := 10, author := 42 }] }).1
      1 { id := 1, project := 10 } { id := 10, owner := 7, members := [{ user := 2 }] }
      (by decide) (by decide) (by decide),
   (nonmember_routes_403 99
      { tasks := [{ id := 1, project := 10 }]
        projects := [{ id := 10, owner := 7, members := [{ user := 2 }] }]
        messages := [{ id := 3, project := 10, author := 42 }] }).2.2.2.1
      3 "+1" "add" { id := 3, project := 10, author := 42 }
      { id := 10, owner := 7, members := [{ user := 2 }] }
      (by decide) (by decide) (by decide),
   (nonmember_routes_403 99
      { tasks := [{ id := 1, project := 10 }]
        projects := [{ id := 10, owner := 7, members := [{ user := 2 }] }]
        messages := [{ id := 3, project := 10, author := 42 }] }).2.2.2.2.1
      1 TaskStatus.completed 0 { id := 1, project := 10 }
      { id := 10, owner := 7, members := [{ user := 2 }] }
      (by decide) (by decide) (by decide) (by decide),
   (nonmember_routes_403 42
      { tasks := [{ id := 1, project := 10 }]
        projects := [{ id := 10, owner := 7, members := [{ user := 2 }] }]
        messages := [{ id := 3, project := 10, author := 42 }] }).2.2.2.2.2.2.2.1
      3 "hi" 0 { id := 3, project := 10, author := 42 }
      { id := 10, owner := 7, members := [{ user := 2 }] }
      (by decide) (by decide) (by decide) rfl⟩

/-- Counterexample to C6 as stated: `POST /api/auth/refresh` carries no
`authenticateToken` middleware, yet it is neither registration, login, nor
password-reset initiation. -/
theorem refresh_reachable_without_token :
    ({ method := "POST", path := "/api/auth/refresh", usesAuth := false } : RouteSpec) ∈ apiRoutes
  ∧ ¬("/api/auth/refresh" = "/api/auth/register"
      ∨ "/api/auth/refresh" = "/api/auth/login"
      ∨ "/api/auth/refresh" = "/api/auth/forgot-password") := by decide

/-- C6 (amended): the only routes reachable without a bearer token are
registration, login, token refresh, password-reset initiation and
password-reset completion; on every guarded route `authenticateToken`
answers 401 for a missing, malformed or expired token before any handler
logic runs. -/
theorem bearer_auth_required :
    (∀ r ∈ apiRoutes, r.usesAuth = false →
        r.path ∈ ["/api/auth/register", "/api/auth/login", "/api/auth/refresh",
                  "/api/auth/forgot-password", "/api/auth/reset-password/:token"])
  ∧ (∀ (verify : String → TokenVerify) (users : List UserDoc),
        authenticateToken verify users none = .error 401 "Access token is required")
  ∧ (∀ (verify : String → TokenVerify) (users : List UserDoc) (hdr tok : String),
        ((jsSplit ' ' hdr.data).get? 1).map String.mk = some tok → ¬tok = "" →
        verify tok = .malformed →
        authenticateToken verify users (some hdr) = .error 401 "Invalid token")
  ∧ (∀ (verify : String → TokenVerify) (users : List UserDoc) (hdr tok : String),
        ((jsSplit ' ' hdr.data).get? 1).map String.mk = some tok → ¬tok = "" →
        verify tok = .expired →
        authenticateToken verify users (some hdr) = .error 401 "Token expired") := by
  refine ⟨?_, ?_, ?_, ?_⟩
  · intro r hr
    fin_cases hr <;> simp
  · intro verify users
    rfl
  · intro verify users hdr tok hextr htok hver
    unfold authenticateToken
    dsimp only
    rw [hextr]
    dsimp only
    rw [if_neg (by simpa using htok), hver]
  · intro verify users hdr tok hextr htok hver
    unfold authenticateToken
    dsimp only
    rw [hextr]
    dsimp only
    rw [if_neg (by simpa using htok), hver]

/-- Witness for C6 (amended): the register route is in the unguarded list,
and a malformed / an expired bearer token is answered with 401. -/
theorem bearer_auth_required_witness :
    ("/api/auth/register" ∈ ["/api/auth/register", "/api/auth/login", "/api/auth/refresh",
        "/api/auth/forgot-password", "/api/auth/reset-password/:token"])
  ∧ authenticateToken (fun _ => TokenVerify.malformed) [] (some "Bearer abc")
      = .error 401 "Invalid token"
  ∧ authenticateToken (fun _ => TokenVerify.expired) [] (some "Bearer abc")
      = .error 401 "Token expired" :=
  ⟨bearer_auth_required.1 { method := "POST", path := "/api/auth/register", usesAuth := false }
      (by decide) rfl,
   bearer_auth_required.2.2.1 (fun _ => TokenVerify.malformed) [] "Bearer abc" "abc"
      (by decide) (by decide) rfl,
   bearer_auth_required.2.2.2 (fun _ => TokenVerify.expired) [] "Bearer abc" "abc"
      (by decide) (by decide) rfl⟩

/-- Counterexample to C7 as stated: the `GET /api/auth/me` success body is
`{success: true, data: {user}}` with no `message` field, and the
placeholder user controller answers `{message}` with no `success` field at
all, so the responses are not uniformly `{success, message, data|error}`. -/
theorem authMe_response_lacks_message :
    authMeResponse ∈ observedResponses ∧ authMeResponse.hasMessage = false
  ∧ ({ origin := "GET /api/users 200 placeholder", httpStatus := 200,
       hasSuccess := false, hasMessage := true, hasData := false,
       hasErrorField := false, fromPlaceholder := true } : RespShape) ∈ observedResponses
  ∧ ({ origin := "GET /api/users 200 placeholder", httpStatus := 200,
       hasSuccess := false, hasMessage := true, hasData := false,
       hasErrorField := false, fromPlaceholder := true } : RespShape).hasSuccess = false := by
  decide

/-- C7 (amended): every failure response (HTTP status ≥ 400) carries a
boolean `success` field and a `message`; every response outside the
placeholder project/user controllers carries a boolean `success` field
(success bodies may omit `message`, e.g. `GET /api/auth/me`, or carry no
`data`, e.g. `DELETE /api/tasks/:id`); the placeholder controllers answer
`{message}` only, with no `success` field. -/
theorem responses_have_success_flag (r : RespShape) (h : r ∈ observedResponses) :
    (400 ≤ r.httpStatus → r.hasSuccess = true ∧ r.hasMessage = true)
  ∧ (r.fromPlaceholder = false → r.hasSuccess = true) := by
  fin_cases h <;> decide

/-- Witness for C7 (amended) at the `/me` success body and the production
error body. -/
theorem responses_have_success_flag_witness :
    authMeResponse.hasSuccess = true
  ∧ ({ origin := "sendErrorProd operational", httpStatus := 403,
       hasSuccess := true, hasMessage := true, hasData := false,
       hasErrorField := false } : RespShape).hasMessage = true :=
  ⟨(responses_have_success_flag authMeResponse (by decide)).2 (by decide),
   ((responses_have_success_flag
      { origin := "sendErrorProd operational", httpStatus := 403,
        hasSuccess := true, hasMessage := true, hasData := false,
        hasErrorField := false } (by decide)).1 (by decide)).2⟩

/-- C8: after the task pre-save hook runs on a save that modified `status`,
`completedAt` is non-null iff the status is `completed`; it is stamped with
the current time when the task completes with `completedAt` null, and
cleared whenever the status is anything else. -/
theorem taskPreSave_completedAt_iff (now : Nat) (t : TaskDoc) :
    ((taskPreSave true now t).completedAt ≠ none ↔
      (taskPreSave true now t).status = TaskStatus.completed)
  ∧ (t.status = TaskStatus.completed → t.completedAt = none →
      (taskPreSave true now t).completedAt = some now)
  ∧ (t.status ≠ TaskStatus.completed → (taskPreSave true now t).completedAt = none) := by
  by_cases hs : t.status = TaskStatus.completed <;>
    rcases hc : t.completedAt with _ | c <;>
      simp [taskPreSave, hs, hc]

/-- Witness for C8 at a concrete task completing for the first time. -/
theorem taskPreSave_completedAt_iff_witness :
    (taskPreSave true 42 { id := 1, project := 2, status := TaskStatus.completed }).completedAt
      = some 42 :=
  (taskPreSave_completedAt_iff 42 _).2.1 rfl rfl

/-- Counterexample to C3 as stated: user 2 is a member of project 10 (role
`viewer`, whose `canEditTasks` permission is false), yet their
`PUT /api/tasks/:id` status update is rejected with 403 — membership alone
is not sufficient. -/
theorem putTaskStatus_member_without_edit_403 :
    putTaskStatus 2 1 TaskStatus.completed 0
      { tasks := [{ id := 1, project := 10 }]
        projects := [{ id := 10
                       owner := 7
                       members := [{ user := 2
                                     role := Role.viewer
                                     permissions := { canCreateTasks := false
                                                      canEditTasks := false } }] }]
        messages := [] }
      = (.error 403 "Access denied - cannot edit tasks in this project",
         { tasks := [{ id := 1, project := 10 }]
           projects := [{ id := 10
                          owner := 7
                          members := [{ user := 2
                                        role := Role.viewer
                                        permissions := { canCreateTasks := false
                                                         canEditTasks := false } }] }]
           messages := [] }) := by decide

/-- C3 (amended): for the project owner, or any member whose
`canEditTasks` permission is true, `PUT /api/tasks/:id` setting the status
succeeds for every pair of old/new statuses — there is no guarded
transition relation. -/
theorem putTaskStatus_canEdit_any_status (user tid : Nat) (newStatus : TaskStatus) (now : Nat)
    (db : DB) (task : TaskDoc) (project : ProjectDoc)
    (htask : db.tasks.find? (fun u => u.id == tid) = some task)
    (hproj : findProject db.projects task.project = some project)
    (hperm : project.owner = user ∨
      ∃ mem, project.members.find? (fun m => m.user == user) = some mem ∧
        mem.permissions.canEditTasks = true) :
    ∃ t' db', putTaskStatus user tid newStatus now db = (.ok 200 t', db')
      ∧ t'.status = newStatus := by
  unfold putTaskStatus
  rw [htask]
  dsimp only
  rw [hproj]
  dsimp only
  have hcond : (!(project.owner == user) &&
      (match project.members.find? (fun mem => mem.user == user) with
       | none => true
       | some mem => !mem.permissions.canEditTasks)) = false := by
    rcases hperm with h | ⟨mem, hfind, hedit⟩
    · simp [h]
    · rw [hfind]
      simp [hedit]
  rw [hcond]
  simp only [Bool.false_eq_true, if_false]
  by_cases hch : (task.status == newStatus) = true
  · simp only [hch, Bool.not_true, Bool.false_eq_true, if_false]
    exact ⟨task, _, rfl, beq_iff_eq.mp hch⟩
  · simp only [eq_false_of_ne_true hch, Bool.not_false, if_true]
    refine ⟨_, _, rfl, ?_⟩
    simp [taskPreSave_status]

/-- Witness for C3 (amended): the owner moves a todo task to completed. -/
theorem putTaskStatus_canEdit_any_status_witness :
    ∃ t' db', putTaskStatus 7 1 TaskStatus.completed 0
      { tasks := [{ id := 1, project := 10 }]
        projects := [{ id := 10, owner := 7 }]
        messages := [] } = (.ok 200 t', db') ∧ t'.status = TaskStatus.completed :=
  putTaskStatus_canEdit_any_status 7 1 TaskStatus.completed 0
    { tasks := [{ id := 1, project := 10 }]
      projects := [{ id := 10, owner := 7 }]
      messages := [] }
    { id := 1, project := 10 } { id := 10, owner := 7 }
    (by decide) (by decide) (Or.inl rfl)

theorem pullDependenciesOp_clean (tid : Nat) (tasks : List TaskDoc) :
    ∀ u ∈ pullDependenciesOp tid tasks, ∀ d ∈ u.dependencies, d.task ≠ tid := by
  intro u hu d hd
  simp only [pullDependenciesOp] at hu
  rcases List.mem_map.mp hu with ⟨v, hv, rfl⟩
  rcases hany : v.dependencies.any (fun d => d.task == tid) <;> simp [hany] at hd
  · rcases List.any_eq_false.mp hany d hd with hne
    simpa using hne
  · exact hd.2

/-- C4: a permitted `DELETE /api/tasks/:id` performs the dependency pull
and then the delete as two sequential operations, and afterwards no task's
`dependencies` list references the deleted task. -/
theorem deleteTask_removes_dependencies (user tid : Nat) (db db' : DB)
    (h : deleteTask user tid db = (.ok 200 (), db')) :
    db'.tasks = deleteOneOp tid (pullDependenciesOp tid db.tasks)
  ∧ ∀ u ∈ db'.tasks, ∀ d ∈ u.dependencies, d.task ≠ tid := by
  unfold deleteTask at h
  split at h
  · exact absurd h (by simp)
  next task hfind =>
    split at h
    · exact absurd h (by simp)
    next project hproj =>
      dsimp only at h
      split at h
      · exact absurd h (by simp)
      next hcond =>
        have hid : task.id = tid := by
          have := List.find?_some hfind
          simpa using this
        simp only [Prod.mk.injEq, true_and] at h
        subst h
        refine ⟨by simp [hid], ?_⟩
        intro u hu d hd
        simp only [hid, deleteOneOp] at hu
        exact pullDependenciesOp_clean tid db.tasks u (List.mem_of_mem_filter hu) d hd

/-- Witness for C4: the owner deletes task 1; task 2's dependency on it is
pulled first, then task 1 is removed. -/
theorem deleteTask_removes_dependencies_witness :
    ({ tasks := [{ id := 2, project := 10 }]
       projects := [{ id := 10, owner := 7 }]
       messages := [] } : DB).tasks
        = deleteOneOp 1 (pullDependenciesOp 1
            [{ id := 1, project := 10 },
             { id := 2
               project := 10
               dependencies := [{ task := 1, depType := DepType.blocks }] }])
  ∧ ∀ u ∈ ({ tasks := [{ id := 2, project := 10 }]
             projects := [{ id := 10, owner := 7 }]
             messages := [] } : DB).tasks,
      ∀ d ∈ u.dependencies, d.task ≠ 1 :=
  deleteTask_removes_dependencies 7 1
    { tasks := [{ id := 1, project := 10 },
                { id := 2
                  project := 10
                  dependencies := [{ task := 1, depType := DepType.blocks }] }]
      projects := [{ id := 10, owner := 7 }]
      messages := [] }
    { tasks := [{ id := 2, project := 10 }]
      projects := [{ id := 10, owner := 7 }]
      messages := [] }
    (by decide)

end SynergySphere
